import Mathlib

/-!
# Verification of the Bank-Root ledger transaction engine

Shallow embedding of src/controllers/transactions.py (the create_transaction
endpoint and its helper validate_account_owner_by_number) together with the
data model of src/models.py (Account, Transaction).

Modelling conventions:

* Monetary amounts (DECIMAL(10,2) columns, Python Decimal values) are exact
  fixed-point numbers; we represent them as Int counts of minor units (cents).
  All arithmetic in the source is exact decimal arithmetic, so this is faithful.
* The request field amount arrives as raw JSON and is parsed by
  Decimal(data.get(...)) at transactions.py line 130.  We model the parse
  result as Option Int: none when Decimal raises (non-numeric or absent
  input), some v when it parses to the exact value v.  Note that the source
  performs no sign check and no zero check on the parsed value.
* The SQLAlchemy session is a unit of work: balance mutations on ORM objects
  and session.add are pending until session.commit() at line 170; commit
  either persists every pending change or raises SQLAlchemyError, in which
  case the handler calls session.rollback() at line 175 and the store is left
  unchanged.  The boolean commitOk argument selects which of the two happens.
  An early return before commit abandons the pending changes (the session is
  closed without committing), so the store is unchanged on those paths too.
* query(...).first() is List.find? over the account table; id is the primary
  key and account_number carries a unique constraint.
* Timestamps are abstract Nat ticks; the onupdate hook on the updated_at
  column fires for every account row whose balance is written.
-/

namespace BankRoot

/-- An accounts row (src/models.py lines 22-36). -/
structure Account where
  id : Nat
  user_id : Nat
  account_type : String
  account_number : String
  balance : Int
  created_at : Nat
  updated_at : Nat
  deriving DecidableEq, Repr

/-- A transactions row, i.e. a ledger entry (src/models.py lines 40-53). -/
structure Transaction where
  id : Nat
  from_account_id : Option Nat
  to_account_id : Option Nat
  amount : Int
  type : String
  description : String
  created_at : Nat
  deriving DecidableEq, Repr

/-- The durable store: the two tables the engine touches. -/
structure DB where
  accounts : List Account
  transactions : List Transaction
  deriving DecidableEq, Repr

/-- The JSON body of POST /transactions/ after Flask parsing
(transactions.py lines 127-132), plus the JWT caller identity.
An amount of none models a value on which Decimal raises. -/
structure TxRequest where
  user_id : Nat
  from_account_number : String
  to_account_number : Option String
  amount : Option Int
  transaction_type : String
  description : String
  deriving DecidableEq, Repr

/-- The distinct error responses create_transaction can produce, one per
return-jsonify site, plus the uncaught Decimal exception. -/
inductive TxError where
  /-- Decimal(data.get(...)) raised before the session opened (line 130). -/
  | amountParseError
  /-- 403 "Unauthorized access to the account" (line 139). -/
  | unauthorized
  /-- 400 "Insufficient funds" (withdrawal, line 151). -/
  | insufficientFunds
  /-- 400 "Insufficient funds or invalid target account" (transfer, line 157). -/
  | insufficientOrInvalidTarget
  /-- 400 "Invalid transaction type" (line 159). -/
  | invalidType
  /-- 500: session.commit() raised SQLAlchemyError, the handler rolled back
  (lines 174-176). -/
  | commitFailed
  deriving DecidableEq, Repr

/-- validate_account_owner_by_number (transactions.py lines 17-19):
the query filters by both account_number and user_id and takes first(). -/
def validate_account_owner_by_number (user_id : Nat) (account_number : String)
    (db : DB) : Option Account :=
  db.accounts.find? (fun a => a.account_number == account_number && a.user_id == user_id)

/-- Line 142: the target account is looked up by account_number alone
(no ownership filter) whenever to_account_number is truthy, for every
transaction type.  An absent or empty (falsy) number yields None. -/
def lookup_to_account (db : DB) (to_account_number : Option String) : Option Account :=
  match to_account_number with
  | some num => if num = "" then none else db.accounts.find? (fun a => a.account_number == num)
  | none => none

/-- In-session balance mutation (balance += delta) on the row with the given
primary key; the onupdate hook stamps updated_at when the row is flushed. -/
def applyDelta (db : DB) (aid : Nat) (delta : Int) (now : Nat) : DB :=
  { db with
    accounts := db.accounts.map (fun a =>
      if a.id = aid then { a with balance := a.balance + delta, updated_at := now } else a) }

/-- Lines 144-159: the if/elif/else block on transaction_type.  Computes the
store with the pending balance mutations of this invocation applied, or the
error response that ends the handler before any ledger record is built.
In the source the mutations are attribute writes on the ORM objects; a
transfer mutates the source object first and the target object second, which
makes a self-transfer (both numbers resolving to the same row) a net no-op,
exactly as sequential applyDelta calls keyed by id do. -/
def apply_transaction_type (db : DB) (from_account : Account) (to_account : Option Account)
    (amount : Int) (transaction_type : String) (now : Nat) : Except TxError DB :=
  if transaction_type = "deposit" then
    Except.ok (applyDelta db from_account.id amount now)
  else if transaction_type = "withdrawal" then
    if from_account.balance ≥ amount then
      Except.ok (applyDelta db from_account.id (-amount) now)
    else
      Except.error TxError.insufficientFunds
  else if transaction_type = "transfer" then
    if from_account.balance ≥ amount then
      match to_account with
      | some t =>
        Except.ok (applyDelta (applyDelta db from_account.id (-amount) now) t.id amount now)
      | none => Except.error TxError.insufficientOrInvalidTarget
    else
      Except.error TxError.insufficientOrInvalidTarget
  else
    Except.error TxError.invalidType

/-- The create_transaction handler (transactions.py lines 90-178).

Arguments beyond the request: db is the store at invocation, commitOk tells
whether session.commit() succeeds or raises, now is the clock tick used for
the timestamps of this invocation.  The assigned ledger-entry identifier is
modelled as the current length of the transactions table (identifiers are
assigned monotonically).

Returns the HTTP-level outcome together with the store visible after the
handler finishes, i.e. after commit or rollback. -/
def create_transaction (db : DB) (req : TxRequest) (commitOk : Bool) (now : Nat) :
    Except TxError Unit × DB :=
  match req.amount with
  | none => (Except.error TxError.amountParseError, db)
  | some amount =>
    match validate_account_owner_by_number req.user_id req.from_account_number db with
    | none => (Except.error TxError.unauthorized, db)
    | some from_account =>
      let to_account := lookup_to_account db req.to_account_number
      match apply_transaction_type db from_account to_account amount req.transaction_type now with
      | Except.error e => (Except.error e, db)
      | Except.ok db2 =>
        let entry : Transaction :=
          { id := db.transactions.length
            from_account_id := some from_account.id
            to_account_id := to_account.map Account.id
            amount := amount
            type := req.transaction_type
            description := req.description
            created_at := now }
        let db3 : DB := { db2 with transactions := db2.transactions ++ [entry] }
        if commitOk then (Except.ok (), db3)
        else (Except.error TxError.commitFailed, db)

/-- The amount a ledger entry credits to account aid: the balance increase
the engine performed on that account when it wrote the entry.  A deposit
credits the account named by its from reference (line 146); a transfer
credits the account named by its to reference (line 155). -/
def creditsTo (aid : Nat) (e : Transaction) : Int :=
  (if e.type = "deposit" ∧ e.from_account_id = some aid then e.amount else 0) +
  (if e.type = "transfer" ∧ e.to_account_id = some aid then e.amount else 0)

/-- The amount a ledger entry debits from account aid: the balance decrease
the engine performed on that account when it wrote the entry.  A withdrawal
(line 149) and the source leg of a transfer (line 154) debit the account
named by the from reference. -/
def debitsFrom (aid : Nat) (e : Transaction) : Int :=
  (if e.type = "withdrawal" ∧ e.from_account_id = some aid then e.amount else 0) +
  (if e.type = "transfer" ∧ e.from_account_id = some aid then e.amount else 0)

/-- Total ledger-recorded credits to an account. -/
def ledgerCredits (ts : List Transaction) (aid : Nat) : Int :=
  (ts.map (creditsTo aid)).sum

/-- Total ledger-recorded debits from an account. -/
def ledgerDebits (ts : List Transaction) (aid : Nat) : Int :=
  (ts.map (debitsFrom aid)).sum

/-- Conservation predicate: every account balance, minus the credits and plus
the debits the ledger records for it, equals the provisioned value given by
init (indexed by account id). -/
def conservation (init : Nat → Int) (db : DB) : Prop :=
  ∀ acc ∈ db.accounts,
    acc.balance - ledgerCredits db.transactions acc.id + ledgerDebits db.transactions acc.id
      = init acc.id

/- Concrete fixtures used by witnesses and counterexamples. -/

/-- A provisioned account owned by user 10. -/
def acct1 : Account :=
  { id := 1, user_id := 10, account_type := "checking", account_number := "ACC-1",
    balance := 1000, created_at := 0, updated_at := 0 }

/-- A provisioned account owned by user 20. -/
def acct2 : Account :=
  { id := 2, user_id := 20, account_type := "savings", account_number := "ACC-2",
    balance := 500, created_at := 0, updated_at := 0 }

/-- A two-account store with an empty ledger. -/
def dbW : DB := { accounts := [acct1, acct2], transactions := [] }

/-- Provisioned balances of dbW, indexed by account id. -/
def initW : Nat → Int := fun aid => if aid = 1 then 1000 else if aid = 2 then 500 else 0

/-- A deposit request whose amount parsed to a negative value. -/
def negDepositReq : TxRequest :=
  { user_id := 10, from_account_number := "ACC-1", to_account_number := none,
    amount := some (-500), transaction_type := "deposit", description := "" }

/-- A transfer to an account number that resolves to no account. -/
def missingTargetReq : TxRequest :=
  { user_id := 10, from_account_number := "ACC-1", to_account_number := some "ACC-9",
    amount := some 100, transaction_type := "transfer", description := "" }

/-- A transfer to an existing target for more than the source balance. -/
def brokeTransferReq : TxRequest :=
  { user_id := 10, from_account_number := "ACC-1", to_account_number := some "ACC-2",
    amount := some 5000, transaction_type := "transfer", description := "" }

/-- A transfer whose target account number equals the source account number. -/
def selfTransferReq : TxRequest :=
  { user_id := 10, from_account_number := "ACC-1", to_account_number := some "ACC-1",
    amount := some 100, transaction_type := "transfer", description := "" }

/-- A withdrawal request that also carries a resolvable target number. -/
def withdrawTargetReq : TxRequest :=
  { user_id := 10, from_account_number := "ACC-1", to_account_number := some "ACC-2",
    amount := some 100, transaction_type := "withdrawal", description := "" }

/- Helper lemmas. -/

/-- Balance mutation never touches the transactions table. -/
theorem applyDelta_transactions (db : DB) (aid : Nat) (d : Int) (n : Nat) :
    (applyDelta db aid d n).transactions = db.transactions := rfl

/-- When the apply step succeeds, the pending store has the same ledger as
the starting store: only balances were mutated. -/
theorem apply_transaction_type_ok_transactions {db db2 : DB} {fa : Account}
    {ta : Option Account} {amount : Int} {ty : String} {now : Nat}
    (h : apply_transaction_type db fa ta amount ty now = Except.ok db2) :
    db2.transactions = db.transactions := by
  unfold apply_transaction_type at h
  split_ifs at h <;> try (cases h ; rfl)
  cases ta with
  | none => cases h
  | some t => cases h ; rfl

/-- Evaluation of creditsTo on a deposit-shaped entry. -/
theorem creditsTo_entry_deposit (aid len i : Nat) (o : Option Nat) (a : Int)
    (d : String) (now : Nat) :
    creditsTo aid { id := len, from_account_id := some i, to_account_id := o,
                    amount := a, type := "deposit", description := d, created_at := now }
      = if i = aid then a else 0 := by
  simp [creditsTo]

/-- Evaluation of debitsFrom on a deposit-shaped entry. -/
theorem debitsFrom_entry_deposit (aid len i : Nat) (o : Option Nat) (a : Int)
    (d : String) (now : Nat) :
    debitsFrom aid { id := len, from_account_id := some i, to_account_id := o,
                     amount := a, type := "deposit", description := d, created_at := now }
      = 0 := by
  simp [debitsFrom]

/-- Evaluation of creditsTo on a withdrawal-shaped entry. -/
theorem creditsTo_entry_withdrawal (aid len i : Nat) (o : Option Nat) (a : Int)
    (d : String) (now : Nat) :
    creditsTo aid { id := len, from_account_id := some i, to_account_id := o,
                    amount := a, type := "withdrawal", description := d, created_at := now }
      = 0 := by
  simp [creditsTo]

/-- Evaluation of debitsFrom on a withdrawal-shaped entry. -/
theorem debitsFrom_entry_withdrawal (aid len i : Nat) (o : Option Nat) (a : Int)
    (d : String) (now : Nat) :
    debitsFrom aid { id := len, from_account_id := some i, to_account_id := o,
                     amount := a, type := "withdrawal", description := d, created_at := now }
      = if i = aid then a else 0 := by
  simp [debitsFrom]

/-- Evaluation of creditsTo on a transfer-shaped entry. -/
theorem creditsTo_entry_transfer (aid len i j : Nat) (a : Int) (d : String) (now : Nat) :
    creditsTo aid { id := len, from_account_id := some i, to_account_id := some j,
                    amount := a, type := "transfer", description := d, created_at := now }
      = if j = aid then a else 0 := by
  simp [creditsTo]

/-- Evaluation of debitsFrom on a transfer-shaped entry. -/
theorem debitsFrom_entry_transfer (aid len i j : Nat) (a : Int) (d : String) (now : Nat) :
    debitsFrom aid { id := len, from_account_id := some i, to_account_id := some j,
                     amount := a, type := "transfer", description := d, created_at := now }
      = if i = aid then a else 0 := by
  simp [debitsFrom]

/-- Conservation is preserved by any step that appends one ledger entry and
updates every account row by exactly the net amount that entry records for
it (credits minus debits). -/
theorem conservation_append (init : Nat → Int) (db : DB) (e : Transaction)
    (u : Account → Account)
    (hid : ∀ acc, (u acc).id = acc.id)
    (hbal : ∀ acc, (u acc).balance = acc.balance + (creditsTo acc.id e - debitsFrom acc.id e))
    (hcons : conservation init db) :
    conservation init { accounts := db.accounts.map u, transactions := db.transactions ++ [e] } := by
  intro acc' ha'
  rcases List.mem_map.mp ha' with ⟨acc, ha, rfl⟩
  have h := hcons acc ha
  simp only [ledgerCredits, ledgerDebits, List.map_append, List.sum_append,
    List.map_cons, List.map_nil, List.sum_cons, List.sum_nil, hid, hbal] at *
  omega

/- Claim theorems. -/

/-- C1: every invocation is all-or-nothing.  If the handler returns an error
(including a commit failure after balances were mutated in the apply step),
the visible store is exactly the starting store: every pending balance change
is rolled back and no ledger entry is visible.  If it returns success, the
visible store carries exactly one appended ledger entry for the invocation.
Hence no final state has a balance change without its ledger record or a
ledger record without its balance change. -/
theorem tx_all_or_nothing (db : DB) (req : TxRequest) (commitOk : Bool) (now : Nat) :
    match create_transaction db req commitOk now with
    | (Except.ok _, db') => ∃ e, db'.transactions = db.transactions ++ [e]
    | (Except.error _, db') => db' = db := by
  unfold create_transaction
  cases hamt : req.amount with
  | none => simp
  | some amount =>
    cases hauth : validate_account_owner_by_number req.user_id req.from_account_number db with
    | none => simp
    | some fa =>
      cases happ : apply_transaction_type db fa (lookup_to_account db req.to_account_number)
          amount req.transaction_type now with
      | error e => dsimp only ; rw [happ]
      | ok db2 =>
        have ht := apply_transaction_type_ok_transactions happ
        dsimp only
        rw [happ]
        by_cases hc : commitOk <;> simp [hc, ht]

/-- C2 (code behavior at the failing input): a deposit whose amount parsed to
the negative value -500 is accepted, mutates the source balance downward from
1000 to 500, and writes a ledger entry with the negative amount.  The code
performs no positivity or zero check on the parsed amount, so it does not
reject such a request with any InvalidAmount-style error before mutating. -/
theorem negative_deposit_accepted_and_mutates :
    (create_transaction dbW negDepositReq true 7).1 = Except.ok () ∧
    ((create_transaction dbW negDepositReq true 7).2.accounts.map Account.balance)
      = [500, 500] ∧
    ((create_transaction dbW negDepositReq true 7).2.transactions.map Transaction.amount)
      = [-500] :=
  ⟨rfl, rfl, rfl⟩

/-- C3: a withdrawal whose amount strictly exceeds the source balance is
rejected with the insufficient-funds error and the store is unchanged: the
source balance keeps its pre-transaction value and no ledger entry exists. -/
theorem withdrawal_insufficient_rejected (db : DB) (req : TxRequest) (commitOk : Bool)
    (now : Nat) (a : Int) (fa : Account)
    (hamt : req.amount = some a)
    (hty : req.transaction_type = "withdrawal")
    (hauth : validate_account_owner_by_number req.user_id req.from_account_number db = some fa)
    (hlt : fa.balance < a) :
    create_transaction db req commitOk now = (Except.error TxError.insufficientFunds, db) := by
  unfold create_transaction
  rw [hamt]
  dsimp only
  rw [hauth]
  dsimp only
  rw [hty]
  unfold apply_transaction_type
  rw [if_neg (by decide), if_pos rfl, if_neg (not_le.mpr hlt)]

/-- C3 witness: withdrawing 2000 from acct1 (balance 1000) fails with the
insufficient-funds error and leaves the store unchanged. -/
theorem withdrawal_insufficient_rejected_witness :
    create_transaction dbW
      { user_id := 10, from_account_number := "ACC-1", to_account_number := none,
        amount := some 2000, transaction_type := "withdrawal", description := "" } true 7 =
      (Except.error TxError.insufficientFunds, dbW) :=
  withdrawal_insufficient_rejected dbW _ true 7 2000 acct1 rfl rfl (by decide) (by decide)

/-- C4 counterexample: the code has no distinct TargetNotFound error.  A
transfer whose target number resolves to no account and a transfer with an
existing target but insufficient funds both return the identical combined
error value (line 157), so the missing-target failure is not distinct from
the insufficient-funds failure. -/
theorem missing_target_error_equals_insufficient_error :
    (create_transaction dbW missingTargetReq true 7).1
      = Except.error TxError.insufficientOrInvalidTarget ∧
    (create_transaction dbW brokeTransferReq true 7).1
      = Except.error TxError.insufficientOrInvalidTarget ∧
    (create_transaction dbW missingTargetReq true 7).1
      = (create_transaction dbW brokeTransferReq true 7).1 :=
  ⟨rfl, rfl, rfl⟩

/-- C4 (amended): a transfer whose target account number resolves to no
account fails with the combined insufficient-or-invalid-target error (the
same error kind used for insufficient funds) and the store is unchanged: the
source balance keeps its pre-transaction value and no ledger entry exists. -/
theorem transfer_unresolved_target_rejected (db : DB) (req : TxRequest) (commitOk : Bool)
    (now : Nat) (a : Int) (fa : Account)
    (hamt : req.amount = some a)
    (hty : req.transaction_type = "transfer")
    (hauth : validate_account_owner_by_number req.user_id req.from_account_number db = some fa)
    (hto : lookup_to_account db req.to_account_number = none) :
    create_transaction db req commitOk now
      = (Except.error TxError.insufficientOrInvalidTarget, db) := by
  unfold create_transaction
  rw [hamt]
  dsimp only
  rw [hauth]
  dsimp only
  rw [hty]
  unfold apply_transaction_type
  rw [hto, if_neg (by decide), if_neg (by decide), if_pos rfl]
  by_cases hb : fa.balance ≥ a
  · rw [if_pos hb]
  · rw [if_neg hb]

/-- C4 witness: a transfer from acct1 to the unknown number ACC-9 fails with
the combined error and leaves the store unchanged. -/
theorem transfer_unresolved_target_rejected_witness :
    create_transaction dbW missingTargetReq true 7
      = (Except.error TxError.insufficientOrInvalidTarget, dbW) :=
  transfer_unresolved_target_rejected dbW missingTargetReq true 7 100 acct1 rfl rfl
    (by decide) (by decide)

/-- C5 counterexample: a self-transfer is not rejected.  With sufficient
funds, a transfer whose target number equals the source number returns
success, writes one transfer ledger entry, and leaves every balance at its
prior value (the debit and credit land on the same row). -/
theorem self_transfer_accepted :
    (create_transaction dbW selfTransferReq true 7).1 = Except.ok () ∧
    ((create_transaction dbW selfTransferReq true 7).2.transactions.map Transaction.type)
      = ["transfer"] ∧
    ((create_transaction dbW selfTransferReq true 7).2.accounts.map Account.balance)
      = [1000, 500] :=
  ⟨rfl, rfl, rfl⟩

/-- C5 (amended): a transfer whose target reference resolves to the source
account itself is accepted whenever the source balance covers the amount: it
commits, leaves every account balance at its pre-transaction value (the debit
and the credit both apply to the same row), and appends one transfer ledger
entry whose source and target references are both that account. -/
theorem self_transfer_net_noop (db : DB) (req : TxRequest) (now : Nat)
    (a : Int) (fa : Account)
    (hamt : req.amount = some a)
    (hty : req.transaction_type = "transfer")
    (hauth : validate_account_owner_by_number req.user_id req.from_account_number db = some fa)
    (hto : lookup_to_account db req.to_account_number = some fa)
    (hb : fa.balance ≥ a) :
    (create_transaction db req true now).1 = Except.ok () ∧
    ((create_transaction db req true now).2.accounts.map Account.balance)
      = db.accounts.map Account.balance ∧
    (create_transaction db req true now).2.transactions
      = db.transactions ++
        [{ id := db.transactions.length, from_account_id := some fa.id,
           to_account_id := some fa.id, amount := a, type := "transfer",
           description := req.description, created_at := now }] := by
  unfold create_transaction
  rw [hamt]
  dsimp only
  rw [hauth]
  dsimp only
  rw [hty]
  unfold apply_transaction_type
  rw [hto, if_neg (by decide), if_neg (by decide), if_pos rfl, if_pos hb]
  dsimp only
  refine ⟨rfl, ?_, rfl⟩
  rw [if_pos rfl]
  dsimp only [applyDelta]
  rw [List.map_map, List.map_map]
  apply List.map_congr_left
  intro x _
  by_cases h : x.id = fa.id <;> simp [h]

/-- C5 witness: the self-transfer of 100 on acct1 commits, keeps both
balances, and appends the expected transfer entry. -/
theorem self_transfer_net_noop_witness :
    (create_transaction dbW selfTransferReq true 7).1 = Except.ok () ∧
    ((create_transaction dbW selfTransferReq true 7).2.accounts.map Account.balance)
      = dbW.accounts.map Account.balance ∧
    (create_transaction dbW selfTransferReq true 7).2.transactions
      = dbW.transactions ++
        [{ id := dbW.transactions.length, from_account_id := some acct1.id,
           to_account_id := some acct1.id, amount := 100, type := "transfer",
           description := selfTransferReq.description, created_at := 7 }] :=
  self_transfer_net_noop dbW selfTransferReq 7 100 acct1 rfl rfl (by decide) (by decide)
    (by decide)

/-- C6: when the ownership lookup by (account number, caller) finds nothing —
whether the account belongs to someone else or does not exist at all — the
handler returns the unauthorized error (there is no not-found variant on this
path) for every transaction type and any amount that parsed, and the store is
completely unchanged: no mutation is attempted. -/
theorem non_owner_rejected_unauthorized (db : DB) (req : TxRequest) (commitOk : Bool)
    (now : Nat) (a : Int)
    (hamt : req.amount = some a)
    (hauth : validate_account_owner_by_number req.user_id req.from_account_number db = none) :
    create_transaction db req commitOk now = (Except.error TxError.unauthorized, db) := by
  unfold create_transaction
  rw [hamt]
  dsimp only
  rw [hauth]

/-- C6 witness: caller 99 on account ACC-1 (owned by user 10, balance 1000)
gets the unauthorized error and the store is unchanged. -/
theorem non_owner_rejected_unauthorized_witness :
    create_transaction dbW
      { user_id := 99, from_account_number := "ACC-1", to_account_number := none,
        amount := some 100, transaction_type := "withdrawal", description := "" } true 7 =
      (Except.error TxError.unauthorized, dbW) :=
  non_owner_rejected_unauthorized dbW _ true 7 100 rfl (by decide)

/-- C7: the conservation invariant is preserved by every invocation of the
handler, for every request, commit outcome and clock value: if every account
balance minus ledger credits plus ledger debits equals its provisioned value
before the call, the same holds after the call. -/
theorem conservation_preserved (init : Nat → Int) (db : DB) (req : TxRequest)
    (commitOk : Bool) (now : Nat)
    (hcons : conservation init db) :
    conservation init (create_transaction db req commitOk now).2 := by
  unfold create_transaction
  cases hamt : req.amount with
  | none => exact hcons
  | some amount =>
    cases hauth : validate_account_owner_by_number req.user_id req.from_account_number db with
    | none => exact hcons
    | some fa =>
      dsimp only
      cases happ : apply_transaction_type db fa (lookup_to_account db req.to_account_number)
          amount req.transaction_type now with
      | error e => exact hcons
      | ok db2 =>
        cases commitOk with
        | false => simpa using hcons
        | true =>
          dsimp only
          revert happ
          generalize hta : lookup_to_account db req.to_account_number = ta
          intro happ
          unfold apply_transaction_type at happ
          split_ifs at happ with h1 h2 h3 h4 h5
          · -- deposit
            cases happ
            rw [h1]
            dsimp only [applyDelta]
            apply conservation_append init db _ _ ?hid ?hbal hcons
            case hid =>
              intro acc
              by_cases h : acc.id = fa.id <;> simp [h]
            case hbal =>
              intro acc
              by_cases h : acc.id = fa.id <;> simp [h, creditsTo, debitsFrom]
              exact fun hh => absurd hh.symm h
          · -- withdrawal with sufficient funds
            cases happ
            rw [h2]
            dsimp only [applyDelta]
            apply conservation_append init db _ _ ?hid2 ?hbal2 hcons
            case hid2 =>
              intro acc
              by_cases h : acc.id = fa.id <;> simp [h]
            case hbal2 =>
              intro acc
              by_cases h : acc.id = fa.id <;> simp [h, creditsTo, debitsFrom]
              exact fun hh => absurd hh.symm h
          · -- transfer with sufficient funds; the insufficient and
            -- invalid-type branches died inside split_ifs, where the
            -- equation on happ is a constructor clash
            cases ta with
            | none => exact (Except.noConfusion happ)
            | some t =>
              cases happ
              rw [h4]
              dsimp only [applyDelta]
              rw [List.map_map]
              apply conservation_append init db _ _ ?hid3 ?hbal3 hcons
              case hid3 =>
                intro acc
                dsimp only [Function.comp]
                split_ifs <;> rfl
              case hbal3 =>
                intro acc
                dsimp only [Function.comp, Option.map]
                rw [creditsTo_entry_transfer, debitsFrom_entry_transfer]
                split_ifs <;> (try dsimp only at *) <;> omega

/-- C7 witness: dbW satisfies conservation for its provisioned balances, and
one committed withdrawal later it still does. -/
theorem conservation_preserved_witness :
    conservation initW (create_transaction dbW withdrawTargetReq true 7).2 :=
  conservation_preserved initW dbW withdrawTargetReq true 7
    (by unfold conservation ledgerCredits ledgerDebits; decide)

/-- C8 counterexample: a committed withdrawal ledger entry can carry a target
reference.  When the withdrawal request includes a resolvable target account
number, line 142 resolves it for every transaction type and the entry is
written with that target id, refuting the claim that a withdrawal entry
carries no target reference. -/
theorem withdrawal_entry_carries_target :
    (create_transaction dbW withdrawTargetReq true 7).1 = Except.ok () ∧
    ((create_transaction dbW withdrawTargetReq true 7).2.transactions.map Transaction.type)
      = ["withdrawal"] ∧
    ((create_transaction dbW withdrawTargetReq true 7).2.transactions.map
      Transaction.to_account_id) = [some 2] :=
  ⟨rfl, rfl, rfl⟩

/-- C8 (amended): the ledger is append-only and every entry the handler
commits carries a source reference (so never both references absent); the
target reference of a new entry is present exactly when the request supplied
a target account number that resolved, irrespective of the transaction type.
Previously written entries are never updated or deleted on any path. -/
theorem ledger_append_only_source_present (db : DB) (req : TxRequest)
    (commitOk : Bool) (now : Nat) :
    ∃ tail, (create_transaction db req commitOk now).2.transactions
        = db.transactions ++ tail ∧
      ∀ e ∈ tail, e.from_account_id ≠ none ∧
        e.to_account_id = (lookup_to_account db req.to_account_number).map Account.id := by
  unfold create_transaction
  cases hamt : req.amount with
  | none => exact ⟨[], by simp, by simp⟩
  | some amount =>
    cases hauth : validate_account_owner_by_number req.user_id req.from_account_number db with
    | none => exact ⟨[], by simp, by simp⟩
    | some fa =>
      dsimp only
      cases happ : apply_transaction_type db fa (lookup_to_account db req.to_account_number)
          amount req.transaction_type now with
      | error e => exact ⟨[], by simp, by simp⟩
      | ok db2 =>
        cases commitOk with
        | false => exact ⟨[], by simp, by simp⟩
        | true =>
          have ht := apply_transaction_type_ok_transactions happ
          refine ⟨[{ id := db.transactions.length, from_account_id := some fa.id,
                     to_account_id := (lookup_to_account db req.to_account_number).map Account.id,
                     amount := amount, type := req.transaction_type,
                     description := req.description, created_at := now }], ?_, ?_⟩
          · dsimp only
            rw [if_pos rfl]
            dsimp only
            rw [ht]
          · intro e he
            rw [List.mem_singleton] at he
            subst he
            exact ⟨Option.some_ne_none _, rfl⟩

/-- C8 witness: the committed withdrawal on dbW appends a tail whose single
entry has a source reference and the resolved target reference. -/
theorem ledger_append_only_source_present_witness :
    ∃ tail, (create_transaction dbW withdrawTargetReq true 7).2.transactions
        = dbW.transactions ++ tail ∧
      ∀ e ∈ tail, e.from_account_id ≠ none ∧
        e.to_account_id = (lookup_to_account dbW withdrawTargetReq.to_account_number).map
          Account.id :=
  ledger_append_only_source_present dbW withdrawTargetReq true 7

/-- C10: frame property of a successful invocation.  The ownership lookup
resolved some source account fa, and the visible account table is the
original one where only rows whose id is the source id — or, for a transfer,
the resolved target id — are rewritten, and such rows change only in their
balance (by a per-id delta) and updated_at fields; every other row, and every
other field of the touched rows, is unchanged.  The ledger is the original
ledger plus exactly one appended entry. -/
theorem frame_property (db : DB) (req : TxRequest) (commitOk : Bool) (now : Nat)
    (hok : (create_transaction db req commitOk now).1 = Except.ok ()) :
    ∃ (fa : Account) (delta : Nat → Int),
      validate_account_owner_by_number req.user_id req.from_account_number db = some fa ∧
      (create_transaction db req commitOk now).2.accounts = db.accounts.map (fun acc =>
        if acc.id = fa.id ∨ (req.transaction_type = "transfer" ∧
            (lookup_to_account db req.to_account_number).map Account.id = some acc.id) then
          { acc with balance := acc.balance + delta acc.id, updated_at := now }
        else acc) ∧
      ∃ e, (create_transaction db req commitOk now).2.transactions
        = db.transactions ++ [e] := by
  unfold create_transaction at hok ⊢
  revert hok
  cases hamt : req.amount with
  | none => intro hok; exact (Except.noConfusion hok)
  | some amount =>
    cases hauth : validate_account_owner_by_number req.user_id req.from_account_number db with
    | none => intro hok; exact (Except.noConfusion hok)
    | some fa =>
      dsimp only
      generalize hta : lookup_to_account db req.to_account_number = ta
      cases happ : apply_transaction_type db fa ta amount req.transaction_type now with
      | error e => intro hok; exact (Except.noConfusion hok)
      | ok db2 =>
        intro hok
        cases commitOk with
        | false => exact (Except.noConfusion hok)
        | true =>
          unfold apply_transaction_type at happ
          split_ifs at happ with h1 h2 h3 h4 h5
          · -- deposit
            cases happ
            refine ⟨fa, fun _ => amount, rfl, ?_, _, rfl⟩
            dsimp only [applyDelta]
            apply List.map_congr_left
            intro acc _
            by_cases h : acc.id = fa.id <;> simp [h, h1]
          · -- withdrawal
            cases happ
            refine ⟨fa, fun _ => -amount, rfl, ?_, _, rfl⟩
            dsimp only [applyDelta]
            apply List.map_congr_left
            intro acc _
            by_cases h : acc.id = fa.id <;> simp [h, h2]
          · -- transfer
            cases ta with
            | none => exact (Except.noConfusion happ)
            | some t =>
              cases happ
              refine ⟨fa,
                fun i => (if i = fa.id then -amount else 0) + (if i = t.id then amount else 0),
                rfl, ?_, _, rfl⟩
              dsimp only [applyDelta]
              rw [List.map_map]
              apply List.map_congr_left
              intro acc _
              dsimp only [Function.comp, Option.map]
              split_ifs <;> simp_all

/-- C10 witness: the committed withdrawal on dbW touches only the source row
and appends one entry. -/
theorem frame_property_witness :
    ∃ (fa : Account) (delta : Nat → Int),
      validate_account_owner_by_number withdrawTargetReq.user_id
        withdrawTargetReq.from_account_number dbW = some fa ∧
      (create_transaction dbW withdrawTargetReq true 7).2.accounts
        = dbW.accounts.map (fun acc =>
          if acc.id = fa.id ∨ (withdrawTargetReq.transaction_type = "transfer" ∧
              (lookup_to_account dbW withdrawTargetReq.to_account_number).map Account.id
                = some acc.id) then
            { acc with balance := acc.balance + delta acc.id, updated_at := 7 }
          else acc) ∧
      ∃ e, (create_transaction dbW withdrawTargetReq true 7).2.transactions
        = dbW.transactions ++ [e] :=
  frame_property dbW withdrawTargetReq true 7 rfl

end BankRoot
